import Mathlib

/-!
Verification development for the wildfire risk-and-cascade engine.

The Python sources are shallowly embedded over the real numbers:
`math.sin`, `math.cos`, `math.exp`, `math.atan2` become their `Real`
counterparts, Python's float `%` becomes `pymod`, and `round(x, n)`
(round-half-even) becomes `pyRound`.  Dictionaries with optional keys
become structures with `Option` fields; `dict.get(k, d)` becomes
`Option.getD`.  Network / file-system effects (HTTP fetches, the
on-disk TTL cache, xarray dataset access) are modelled by passing the
data they would deliver as explicit inputs.
-/

namespace Wildfire

/-- Python's `math.atan2 y x`: the angle of the point `(x, y)` in
`(-pi, pi]`, with `atan2 0 0 = 0`. -/
noncomputable def atan2 (y x : ℝ) : ℝ :=
  if 0 < x then Real.arctan (y / x)
  else if x < 0 then
    (if 0 ≤ y then Real.arctan (y / x) + Real.pi else Real.arctan (y / x) - Real.pi)
  else
    (if 0 < y then Real.pi / 2 else if y < 0 then -(Real.pi / 2) else 0)

/-- `math.radians`. -/
noncomputable def radians (x : ℝ) : ℝ := x * Real.pi / 180

/-- `math.degrees`. -/
noncomputable def degrees (x : ℝ) : ℝ := x * 180 / Real.pi

/-- Python's float modulo: `a % b = a - b * floor (a / b)` (sign of `b`). -/
noncomputable def pymod (a b : ℝ) : ℝ := a - b * ⌊a / b⌋

/-- Round to the nearest integer, ties to the even integer
(the rounding used by Python's built-in `round`). -/
noncomputable def roundHE (x : ℝ) : ℤ :=
  if Int.fract x = 1 / 2 then (if Even ⌊x⌋ then ⌊x⌋ else ⌊x⌋ + 1) else round x

/-- Python's `round(x, n)` on our real-number idealization of floats. -/
noncomputable def pyRound (n : ℕ) (x : ℝ) : ℝ :=
  ((roundHE (x * 10 ^ n) : ℝ)) / 10 ^ n

/-- `risk_model.sigmoid`. -/
noncomputable def sigmoid (x : ℝ) : ℝ := 1 / (1 + Real.exp (-x))

/-- `statistics.mean` on a list of floats (callers guard non-emptiness). -/
noncomputable def listMean (l : List ℝ) : ℝ := l.sum / l.length

/-- `weather._mean_or_default`. -/
noncomputable def meanOrDefault (l : List ℝ) (d : ℝ) : ℝ :=
  if l = [] then d else listMean l

/-- `weather._circular_mean_deg`. -/
noncomputable def circularMeanDeg (vals : List ℝ) : ℝ :=
  match vals with
  | [] => 180
  | _ =>
    let sinSum := (vals.map (fun v => Real.sin (radians v))).sum
    let cosSum := (vals.map (fun v => Real.cos (radians v))).sum
    if |sinSum| < 1e-9 ∧ |cosSum| < 1e-9 then 180
    else pymod (degrees (atan2 sinSum cosSum) + 360) 360

/-! ## GeoMath (`backend/features/geo.py`) -/

/-- `geo.EARTH_RADIUS_KM`. -/
def EARTH_RADIUS_KM : ℝ := 6371.0

/-- `geo.haversine_km`. -/
noncomputable def haversineKm (lat1 lon1 lat2 lon2 : ℝ) : ℝ :=
  let lat1r := radians lat1
  let lon1r := radians lon1
  let lat2r := radians lat2
  let lon2r := radians lon2
  let dlat := lat2r - lat1r
  let dlon := lon2r - lon1r
  let a := Real.sin (dlat / 2) ^ 2 +
    Real.cos lat1r * Real.cos lat2r * Real.sin (dlon / 2) ^ 2
  let c := 2 * atan2 (Real.sqrt a) (Real.sqrt (1 - a))
  EARTH_RADIUS_KM * c

/-- `geo.bearing_deg`. -/
noncomputable def bearingDeg (lat1 lon1 lat2 lon2 : ℝ) : ℝ :=
  let lat1r := radians lat1
  let lat2r := radians lat2
  let dlonr := radians (lon2 - lon1)
  let y := Real.sin dlonr * Real.cos lat2r
  let x := Real.cos lat1r * Real.sin lat2r -
    Real.sin lat1r * Real.cos lat2r * Real.cos dlonr
  pymod (degrees (atan2 y x) + 360) 360

/-- `geo.wind_alignment_cos`. -/
noncomputable def windAlignmentCos (fireToAssetBearingDeg windToBearingDeg : ℝ) : ℝ :=
  Real.cos (radians (fireToAssetBearingDeg - windToBearingDeg))

/-- `geo.nearest_point`: fold over the candidate list keeping the strictly
closer point, so the first point of minimal distance wins. -/
noncomputable def nearestPoint (lat lon : ℝ) (points : List (ℝ × ℝ)) :
    Option (ℝ × ℝ × ℝ) :=
  points.foldl
    (fun best p =>
      let d := haversineKm lat lon p.1 p.2
      match best with
      | none => some (d, p.1, p.2)
      | some b => if d < b.1 then some (d, p.1, p.2) else best)
    none

/-! ## RiskScorer (`backend/model/risk_model.py`) -/

/-- `risk_model.RiskConfig`. -/
structure RiskConfig where
  alpha_dist : ℝ
  alpha_wind : ℝ
  alpha_humidity : ℝ
  base_bias : ℝ

/-- The field defaults of `RiskConfig` (`alpha_dist=1.1`, `alpha_wind=0.08`,
`alpha_humidity=0.03`, `base_bias=-1.2`). -/
def defaultRiskConfig : RiskConfig := ⟨1.1, 0.08, 0.03, -1.2⟩

/-- The weather dictionary as seen by `compute_asset_risk`: keys read with
`weather.get`, so each may be absent. -/
structure WeatherInput where
  wind_speed_kmh : Option ℝ
  humidity_pct : Option ℝ
  wind_direction_deg : Option ℝ

/-- The `features` dictionary of a risk assessment; a missing key is `none`
(the empty dictionary of the unreachable no-nearest-fire branch is the
all-`none` record). -/
structure RiskFeatures where
  min_dist_to_fire_km : Option ℝ
  wind_alignment : Option ℝ
  effective_dist : Option ℝ
  wind_speed_kmh : Option ℝ
  humidity_pct : Option ℝ

/-- The dictionary returned by `compute_asset_risk`. -/
structure RiskAssessment where
  asset_id : String
  risk_score : ℝ
  risk_bucket : String
  features : RiskFeatures

/-- An infrastructure asset record (`id`, optional `name`, `asset_type`,
`lat`, `lon`). -/
structure Asset where
  id : String
  name : Option String
  asset_type : String
  lat : ℝ
  lon : ℝ

/-- A fire detection record (only `lat`/`lon` are read by the engine). -/
structure Fire where
  lat : ℝ
  lon : ℝ

/-- The linear score of `compute_asset_risk` (lines 62-67 of
`risk_model.py`). -/
noncomputable def linearScore (cfg : RiskConfig) (dist align windSpeed humidity : ℝ) : ℝ :=
  cfg.base_bias + cfg.alpha_dist * (5.0 - dist) +
    cfg.alpha_wind * windSpeed * align - cfg.alpha_humidity * humidity

/-- `risk_model._bucket`. -/
noncomputable def bucket (score : ℝ) : String :=
  if 0.75 ≤ score then "high" else if 0.4 ≤ score then "medium" else "low"

/-- `risk_model.compute_asset_risk`.  `config = none` models the Python
default `config or RiskConfig()`. -/
noncomputable def computeAssetRisk (asset : Asset) (fires : List Fire)
    (weather : WeatherInput) (config : Option RiskConfig) : RiskAssessment :=
  let cfg := config.getD defaultRiskConfig
  match fires with
  | [] =>
    { asset_id := asset.id, risk_score := 0.0, risk_bucket := "low",
      features :=
        { min_dist_to_fire_km := none, wind_alignment := none,
          effective_dist := none,
          wind_speed_kmh := weather.wind_speed_kmh,
          humidity_pct := weather.humidity_pct } }
  | _ =>
    match nearestPoint asset.lat asset.lon (fires.map fun f => (f.lat, f.lon)) with
    | none =>
      { asset_id := asset.id, risk_score := 0.0, risk_bucket := "low",
        features := ⟨none, none, none, none, none⟩ }
    | some nearest =>
      let dist_km := nearest.1
      let fire_lat := nearest.2.1
      let fire_lon := nearest.2.2
      let fire_to_asset := bearingDeg fire_lat fire_lon asset.lat asset.lon
      let wind_to := weather.wind_direction_deg.getD 180.0
      let alignment := windAlignmentCos fire_to_asset wind_to
      let wind_speed := weather.wind_speed_kmh.getD 15.0
      let humidity := weather.humidity_pct.getD 35.0
      let effective_dist := dist_km / max 0.2 (wind_speed * max 0.0 alignment + 0.3)
      let risk := sigmoid (linearScore cfg dist_km alignment wind_speed humidity)
      { asset_id := asset.id, risk_score := pyRound 4 risk,
        risk_bucket := bucket risk,
        features :=
          { min_dist_to_fire_km := some (pyRound 3 dist_km),
            wind_alignment := some (pyRound 3 alignment),
            effective_dist := some (pyRound 3 effective_dist),
            wind_speed_kmh := some (pyRound 2 wind_speed),
            humidity_pct := some (pyRound 2 humidity) } }

/-! ## WeatherSource (`backend/ingest/weather.py`)

The HTTP / xarray layers are effectful; their pure cores are embedded with
the fetched sample lists passed as inputs, and `fetch_weather_summary`'s
provider calls passed as `Except` oracles (the on-disk cache is modelled by
the `cached` input; cache writes do not affect any returned value). -/

/-- The summary dictionary produced by the weather providers
(`weather_source` is absent until a tag is attached). -/
structure WeatherSummary where
  temperature_c : ℝ
  humidity_pct : ℝ
  wind_speed_kmh : ℝ
  wind_direction_deg : ℝ
  weather_source : Option String

/-- `take = max(1, min(hours, len(temperature_samples)))` from
`fetch_openmeteo_summary`. -/
def takeCount (hours : ℤ) (temps : List ℝ) : ℕ :=
  (max 1 (min hours (temps.length : ℤ))).toNat

/-- The pure core of `fetch_openmeteo_summary`: the four hourly sample
lists parsed from the HTTP response are inputs. -/
noncomputable def fetchOpenmeteoSummaryCore (hours : ℤ)
    (temps humidity windSpeed windDir : List ℝ) : WeatherSummary :=
  let take := takeCount hours temps
  let temps' := temps.take take
  let humidity' := humidity.take take
  let windSpeed' := windSpeed.take take
  let windDir' := windDir.take take
  { temperature_c := if temps' = [] then 25.0 else listMean temps'
    humidity_pct := if humidity' = [] then 35.0 else listMean humidity'
    wind_speed_kmh := if windSpeed' = [] then 15.0 else listMean windSpeed'
    wind_direction_deg := if windDir' = [] then 180.0 else circularMeanDeg windDir'
    weather_source := none }

/-- The pure core of `fetch_gridmet_summary`: the six GridMET variable
sample lists are inputs. -/
noncomputable def fetchGridmetSummaryCore
    (vsVals thVals tmmnVals tmmxVals rminVals rmaxVals : List ℝ) : WeatherSummary :=
  let wind_speed_kmh := meanOrDefault vsVals 4.2 * 3.6
  let wind_direction := if thVals = [] then 180.0 else circularMeanDeg thVals
  let avg_temp_raw := meanOrDefault (tmmnVals ++ tmmxVals) 298.15
  let temperature_c := if 150 < avg_temp_raw then avg_temp_raw - 273.15 else avg_temp_raw
  let humidity_pct := meanOrDefault (rminVals ++ rmaxVals) 35.0
  { temperature_c := temperature_c, humidity_pct := humidity_pct,
    wind_speed_kmh := wind_speed_kmh, wind_direction_deg := wind_direction,
    weather_source := some "gridmet" }

/-- Python's `str.strip` whitespace test (ASCII whitespace). -/
def pyIsSpace (c : Char) : Bool :=
  c.toNat = 32 || c.toNat = 9 || c.toNat = 10 || c.toNat = 13 ||
    c.toNat = 11 || c.toNat = 12

/-- Python's `str.strip()`: drop whitespace from both ends. -/
def pyStrip (s : List Char) : List Char :=
  ((s.dropWhile pyIsSpace).reverse.dropWhile pyIsSpace).reverse

/-- ASCII lower-casing of one character (`str.lower` on the ASCII source
names used here). -/
def pyLowerChar (c : Char) : Char :=
  if 65 ≤ c.toNat ∧ c.toNat ≤ 90 then Char.ofNat (c.toNat + 32) else c

/-- `source.strip().lower()` at the character-list level. -/
def normalizeSource (s : String) : List Char :=
  (pyStrip s.data).map pyLowerChar

/-- Errors escaping `fetch_weather_summary`: a provider exception, or the
`ValueError` for an unsupported source. -/
inductive FetchError (ε : Type) where
  | provider (e : ε)
  | unsupported (source : String)

/-- `fetch_weather_summary`.  `cached` is the TTL-cache lookup result;
`gridmet` / `openmeteo` are the outcomes the two providers would deliver
if called. -/
noncomputable def fetchWeatherSummary {ε : Type} (cached : Option WeatherSummary)
    (gridmet openmeteo : Except ε WeatherSummary) (source : String) :
    Except (FetchError ε) WeatherSummary :=
  let normalizedSource := normalizeSource source
  match cached with
  | some c => .ok c
  | none =>
    if normalizedSource = "gridmet".data then
      match gridmet with
      | .ok s => .ok s
      | .error _ =>
        match openmeteo with
        | .ok f => .ok { f with weather_source := some "openmeteo_fallback" }
        | .error e => .error (.provider e)
    else if normalizedSource = "openmeteo".data then
      match openmeteo with
      | .ok s => .ok { s with weather_source := some "openmeteo" }
      | .error e => .error (.provider e)
    else .error (.unsupported source)

/-! ## Cache key (`weather._cache_key`)

`f"weather_{source}_{lat:.3f}_{lon:.3f}_{hours}"`.  The `%.3f` fixed-point
formatting rounds half-to-even at the third decimal and keeps the sign of
the formatted value (so a negative value rounding to zero prints
`-0.000`). -/

/-- The character of a decimal digit. -/
def digitChar (n : ℕ) : Char := Char.ofNat (48 + n)

/-- The decimal digits of a natural number, most significant first. -/
def natDigits (n : ℕ) : List Char :=
  if _h : n < 10 then [digitChar n]
  else natDigits (n / 10) ++ [digitChar (n % 10)]
decreasing_by exact Nat.div_lt_self (by omega) (by omega)

/-- A natural number below 1000 padded to exactly three decimal digits. -/
def pad3 (r : ℕ) : List Char :=
  [digitChar (r / 100), digitChar (r / 10 % 10), digitChar (r % 10)]

/-- Decimal rendering of a Python `int` (`str(n)`). -/
def intStr (n : ℤ) : List Char :=
  (if n < 0 then ['-'] else []) ++ natDigits n.natAbs

/-- `f"{x:.3f}"` on our real-number idealization: round `x * 1000`
half-to-even and print with three decimals, keeping the sign of `x`. -/
noncomputable def fmt3 (x : ℝ) : List Char :=
  (if x < 0 then ['-'] else []) ++
    natDigits ((roundHE (x * 1000)).natAbs / 1000) ++
    '.' :: pad3 ((roundHE (x * 1000)).natAbs % 1000)

/-- `weather._cache_key` as a character list. -/
noncomputable def cacheKey (lat lon : ℝ) (hours : ℤ) (source : String) : List Char :=
  "weather_".data ++ source.data ++
    '_' :: fmt3 lat ++ '_' :: fmt3 lon ++ '_' :: intStr hours

/-! ## CascadeImpactAnalyzer (`backend/cascade/impact.py`) -/

/-- An entry of a cascade card's impacted-facility list. -/
structure ImpactedAsset where
  asset_id : String
  name : String
  distance_km : ℝ

/-- `CascadeCard` (the `type` field is always `"substation_outage"`). -/
structure CascadeCard where
  cardType : String
  trigger_asset_id : String
  trigger_name : String
  trigger_risk : ℝ
  impacted_hospitals : List ImpactedAsset
  impacted_water_facilities : List ImpactedAsset

/-- A compromised-road record. -/
structure CompromisedRoad where
  asset_id : String
  name : String
  distance_to_fire_km : ℝ
  status : String

/-- The result dictionary of `compute_cascade_impacts`. -/
structure CascadeResult where
  cascade_cards : List CascadeCard
  compromised_roads : List CompromisedRoad

/-- `risks_by_asset_id.get(id, \x7b\x7d).get("risk_score", 0.0)`:
association-list lookup defaulting to `0.0`. -/
def riskLookup (risks : List (String × ℝ)) (id : String) : ℝ :=
  (risks.lookup id).getD 0.0

/-- `by_type.get(t, [])` for the insertion-ordered grouping of the assets
by `asset_type`: the sublist of assets of that type, in input order. -/
def assetsOfType (assets : List Asset) (t : String) : List Asset :=
  assets.filter (fun a => a.asset_type = t)

/-- `impact._assets_within_radius`. -/
noncomputable def assetsWithinRadius (source : Asset) (candidates : List Asset)
    (radiusKm : ℝ) : List ImpactedAsset :=
  candidates.filterMap (fun c =>
    let d := haversineKm source.lat source.lon c.lat c.lon
    if d ≤ radiusKm then
      some ⟨c.id, c.name.getD c.asset_type, pyRound 3 d⟩
    else none)

/-- `impact._nearest_fire_dist_km`. -/
noncomputable def nearestFireDistKm (asset : Asset) (fires : List Fire) : Option ℝ :=
  match fires.map (fun f => haversineKm asset.lat asset.lon f.lat f.lon) with
  | [] => none
  | d :: ds => some (ds.foldl min d)

/-- The `substation_threshold` default of `compute_cascade_impacts`. -/
def substationThresholdDefault : ℝ := 0.7

/-- The `outage_radius_km` default of `compute_cascade_impacts`. -/
def outageRadiusKmDefault : ℝ := 8.0

/-- The cascade card built for one above-threshold substation. -/
noncomputable def cascadeCardFor (sub : Asset) (risk : ℝ)
    (hospitals water : List Asset) (outageRadiusKm : ℝ) : CascadeCard :=
  { cardType := "substation_outage"
    trigger_asset_id := sub.id
    trigger_name := sub.name.getD "substation"
    trigger_risk := risk
    impacted_hospitals := assetsWithinRadius sub hospitals outageRadiusKm
    impacted_water_facilities := assetsWithinRadius sub water outageRadiusKm }

/-- `impact.compute_cascade_impacts` (thresholds are the function's two
parameters; the Python defaults are `substationThresholdDefault` and
`outageRadiusKmDefault`). -/
noncomputable def computeCascadeImpacts (assets : List Asset)
    (risks : List (String × ℝ)) (fires : List Fire)
    (substationThreshold outageRadiusKm : ℝ) : CascadeResult :=
  let hospitals := assetsOfType assets "hospital"
  let water := assetsOfType assets "water_facility"
  let roads := assetsOfType assets "major_road"
  let cards := (assetsOfType assets "substation").filterMap (fun sub =>
    let risk := riskLookup risks sub.id
    if risk < substationThreshold then none
    else some (cascadeCardFor sub risk hospitals water outageRadiusKm))
  let compromisedRoads := roads.filterMap (fun road =>
    match nearestFireDistKm road fires with
    | none => none
    | some d =>
      if d ≤ 2.0 then
        some ⟨road.id, road.name.getD "road", pyRound 3 d, "compromised"⟩
      else none)
  { cascade_cards := cards, compromised_roads := compromisedRoads }

/-! ## Arithmetic helper lemmas -/

theorem pymod_eq_mul_fract (a : ℝ) {b : ℝ} (hb : b ≠ 0) :
    pymod a b = b * Int.fract (a / b) := by
  have h1 : Int.fract (a / b) = a / b - ⌊a / b⌋ := rfl
  have h2 : b * (a / b) = a := by field_simp
  unfold pymod
  rw [h1, mul_sub, h2]

theorem pymod_nonneg (a : ℝ) {b : ℝ} (hb : 0 < b) : 0 ≤ pymod a b := by
  rw [pymod_eq_mul_fract a hb.ne']
  exact mul_nonneg hb.le (Int.fract_nonneg _)

theorem pymod_lt (a : ℝ) {b : ℝ} (hb : 0 < b) : pymod a b < b := by
  rw [pymod_eq_mul_fract a hb.ne']
  calc b * Int.fract (a / b) < b * 1 := by
        exact mul_lt_mul_of_pos_left (Int.fract_lt_one _) hb
    _ = b := mul_one b

theorem floor_le_roundHE (x : ℝ) : ⌊x⌋ ≤ roundHE x := by
  unfold roundHE
  split_ifs with h1 h2
  all_goals try omega
  rw [round_eq]
  exact Int.floor_le_floor (by linarith)

theorem roundHE_le_floor_add_one (x : ℝ) : roundHE x ≤ ⌊x⌋ + 1 := by
  unfold roundHE
  split_ifs with h1 h2
  all_goals try omega
  rw [round_eq]
  have hx : x < (⌊x⌋ : ℝ) + 1 := Int.lt_floor_add_one x
  have hc : x + 1 / 2 < ((⌊x⌋ + 2 : ℤ) : ℝ) := by push_cast; linarith
  have := Int.floor_lt.mpr hc
  omega

theorem round_eq_floor_of_fract_lt {z : ℝ} (h : Int.fract z < 1 / 2) :
    round z = ⌊z⌋ := by
  rw [round_eq]
  have h0 : (⌊z⌋ : ℝ) ≤ z := Int.floor_le z
  have h1 : Int.fract z = z - ⌊z⌋ := rfl
  apply Int.floor_eq_iff.mpr
  constructor
  · linarith
  · have h2 : z - ⌊z⌋ < 1 / 2 := h1 ▸ h
    linarith

theorem round_eq_floor_add_one_of_half_lt {z : ℝ} (h : 1 / 2 < Int.fract z) :
    round z = ⌊z⌋ + 1 := by
  rw [round_eq]
  have h0 : z < (⌊z⌋ : ℝ) + 1 := Int.lt_floor_add_one z
  have h1 : Int.fract z = z - ⌊z⌋ := rfl
  apply Int.floor_eq_iff.mpr
  constructor
  · push_cast
    linarith
  · push_cast
    linarith

theorem roundHE_mono {x y : ℝ} (h : x ≤ y) : roundHE x ≤ roundHE y := by
  have hf : ⌊x⌋ ≤ ⌊y⌋ := Int.floor_le_floor h
  rcases eq_or_lt_of_le hf with heq | hlt
  · -- equal floors: compare fractional parts
    have hfr : Int.fract x ≤ Int.fract y := by
      have h1 : Int.fract x = x - ⌊x⌋ := rfl
      have h2 : Int.fract y = y - ⌊y⌋ := rfl
      rw [h1, h2, heq]
      linarith
    have hbx := roundHE_le_floor_add_one x
    have hby := floor_le_roundHE y
    by_cases hup : roundHE x = ⌊x⌋ + 1
    · -- x rounds up, so y must round up as well
      have hhalf : 1 / 2 ≤ Int.fract x := by
        by_contra hlt2
        push_neg at hlt2
        have h1 : Int.fract x ≠ 1 / 2 := ne_of_lt hlt2
        have hrx : roundHE x = round x := by
          unfold roundHE
          rw [if_neg h1]
        rw [round_eq_floor_of_fract_lt hlt2] at hrx
        omega
      by_cases hy2 : Int.fract y = 1 / 2
      · have hx2 : Int.fract x = 1 / 2 := le_antisymm (hy2 ▸ hfr) hhalf
        have hodd : ¬ Even ⌊x⌋ := by
          intro he
          have : roundHE x = ⌊x⌋ := by
            unfold roundHE
            rw [if_pos hx2, if_pos he]
          omega
        have hry : roundHE y = ⌊y⌋ + 1 := by
          unfold roundHE
          rw [if_pos hy2, if_neg (heq ▸ hodd)]
        omega
      · have hgt : 1 / 2 < Int.fract y :=
          lt_of_le_of_ne (le_trans hhalf hfr) (Ne.symm hy2)
        have hry : roundHE y = ⌊y⌋ + 1 := by
          unfold roundHE
          rw [if_neg hy2, round_eq_floor_add_one_of_half_lt hgt]
        omega
    · have hdown : roundHE x = ⌊x⌋ := by
        have := floor_le_roundHE x
        omega
      omega
  · calc roundHE x ≤ ⌊x⌋ + 1 := roundHE_le_floor_add_one x
      _ ≤ ⌊y⌋ := by omega
      _ ≤ roundHE y := floor_le_roundHE y

theorem pyRound_mono (n : ℕ) {x y : ℝ} (h : x ≤ y) : pyRound n x ≤ pyRound n y := by
  unfold pyRound
  have hp : (0:ℝ) < 10 ^ n := by positivity
  have hm : x * 10 ^ n ≤ y * 10 ^ n := mul_le_mul_of_nonneg_right h hp.le
  have hr := roundHE_mono hm
  exact div_le_div_of_nonneg_right (by exact_mod_cast hr) hp.le

theorem sigmoid_pos (x : ℝ) : 0 < sigmoid x := by
  unfold sigmoid
  positivity

theorem sigmoid_lt_one (x : ℝ) : sigmoid x < 1 := by
  unfold sigmoid
  have h : (0:ℝ) < 1 + Real.exp (-x) := by positivity
  rw [div_lt_one h]
  linarith [Real.exp_pos (-x)]

theorem sigmoid_mono {x y : ℝ} (h : x ≤ y) : sigmoid x ≤ sigmoid y := by
  unfold sigmoid
  have h1 : (0:ℝ) < 1 + Real.exp (-y) := by positivity
  have h2 : 1 + Real.exp (-y) ≤ 1 + Real.exp (-x) := by
    have := Real.exp_le_exp.mpr (neg_le_neg h)
    linarith
  exact one_div_le_one_div_of_le h1 h2

theorem roundHE_eq_of_lt_half {x : ℝ} (k : ℤ) (h1 : (k:ℝ) ≤ x) (h2 : x < k + 1 / 2) :
    roundHE x = k := by
  have hfl : ⌊x⌋ = k := Int.floor_eq_iff.mpr ⟨h1, by linarith⟩
  have hfr : Int.fract x < 1 / 2 := by
    have he : Int.fract x = x - ⌊x⌋ := rfl
    rw [he, hfl]
    linarith
  unfold roundHE
  rw [if_neg (ne_of_lt hfr), round_eq_floor_of_fract_lt hfr, hfl]

theorem roundHE_eq_of_half_lt {x : ℝ} (k : ℤ) (h1 : (k:ℝ) + 1 / 2 < x) (h2 : x < k + 1) :
    roundHE x = k + 1 := by
  have hfl : ⌊x⌋ = k := Int.floor_eq_iff.mpr ⟨by linarith, by linarith⟩
  have hfr : 1 / 2 < Int.fract x := by
    have he : Int.fract x = x - ⌊x⌋ := rfl
    rw [he, hfl]
    linarith
  unfold roundHE
  rw [if_neg (ne_of_gt hfr), round_eq_floor_add_one_of_half_lt hfr, hfl]

theorem roundHE_zero : roundHE 0 = 0 :=
  roundHE_eq_of_lt_half 0 (by norm_num) (by norm_num)

theorem roundHE_nonneg {x : ℝ} (h : 0 ≤ x) : 0 ≤ roundHE x := by
  have := roundHE_mono h
  rw [roundHE_zero] at this
  exact this

theorem roundHE_nonpos {x : ℝ} (h : x ≤ 0) : roundHE x ≤ 0 := by
  have := roundHE_mono h
  rw [roundHE_zero] at this
  exact this

theorem pyRound_zero (n : ℕ) : pyRound n 0 = 0 := by
  unfold pyRound
  rw [zero_mul, roundHE_zero]
  norm_num

theorem sigmoid_logit {p : ℝ} (h0 : 0 < p) (h1 : p < 1) :
    sigmoid (Real.log (p / (1 - p))) = p := by
  unfold sigmoid
  have hq : (0:ℝ) < (1 - p) / p := by
    apply div_pos <;> linarith
  have : -Real.log (p / (1 - p)) = Real.log ((1 - p) / p) := by
    rw [← Real.log_inv]
    congr 1
    field_simp
  rw [this, Real.exp_log hq]
  field_simp

/-! ## Geo helper lemmas -/

theorem radians_zero : radians 0 = 0 := by
  unfold radians
  ring

theorem haversineKm_self (lat lon : ℝ) : haversineKm lat lon lat lon = 0 := by
  unfold haversineKm atan2
  simp [Real.sqrt_zero, Real.sqrt_one, Real.arctan_zero]

theorem foldl_isSome_of_always {α β : Type} (f : Option β → α → Option β)
    (hf : ∀ acc a, (f acc a).isSome) :
    ∀ (l : List α) (acc : Option β), (acc.isSome ∨ l ≠ []) → (l.foldl f acc).isSome
  | [], acc, h => by
    rw [List.foldl_nil]
    exact h.resolve_right (by simp)
  | a :: l, acc, _ => by
    rw [List.foldl_cons]
    exact foldl_isSome_of_always f hf l (f acc a) (Or.inl (hf acc a))

theorem nearestPoint_isSome (lat lon : ℝ) (points : List (ℝ × ℝ))
    (h : points ≠ []) : (nearestPoint lat lon points).isSome := by
  unfold nearestPoint
  apply foldl_isSome_of_always
  · intro acc a
    match acc with
    | none => rfl
    | some b =>
      simp only
      split_ifs <;> rfl
  · exact Or.inr h

/-! ## Claim C1 -/

/-- Claim C1 as frozen is refuted at a concrete input: with an empty fire
list but a weather dictionary carrying `wind_speed_kmh = 20`, the returned
features are not all null/absent — the wind-speed feature echoes `20`. -/
theorem claim_C1_counterexample :
    (computeAssetRisk ⟨"a1", none, "substation", 0, 0⟩ []
        ⟨some 20, some 30, some 0⟩ none).features ≠
      (⟨none, none, none, none, none⟩ : RiskFeatures) := by
  intro hcontra
  have h20 : (some (20:ℝ)) = (none : Option ℝ) :=
    congrArg RiskFeatures.wind_speed_kmh hcontra
  exact Option.some_ne_none _ h20

/-- Claim C1 (amended): for every asset, weather and config, an empty fire
list makes `compute_asset_risk` return risk_score 0.0 and bucket "low"
without raising, with the three fire-derived features null and the two
weather echo features mirroring the input weather dictionary (absent when
absent there); and `nearest_point` never returns the none sentinel on a
non-empty candidate list, so the zero-risk short-circuit for a missing
nearest fire can only fire together with the empty-fires case. -/
theorem claim_C1 :
    (∀ (asset : Asset) (weather : WeatherInput) (config : Option RiskConfig),
      computeAssetRisk asset [] weather config =
        ⟨asset.id, 0.0, "low",
          ⟨none, none, none, weather.wind_speed_kmh, weather.humidity_pct⟩⟩) ∧
    (∀ (lat lon : ℝ) (points : List (ℝ × ℝ)), points ≠ [] →
      (nearestPoint lat lon points).isSome) :=
  ⟨fun _ _ _ => rfl, nearestPoint_isSome⟩

/-- Witness for C1 at a concrete asset, weather and candidate list. -/
theorem claim_C1_witness :
    computeAssetRisk ⟨"a1", none, "substation", 0, 0⟩ [] ⟨none, none, none⟩ none =
        ⟨"a1", 0.0, "low", ⟨none, none, none, none, none⟩⟩ ∧
      ([((0:ℝ), (0:ℝ))] ≠ ([] : List (ℝ × ℝ)) ∧
        (nearestPoint 0 0 [(0, 0)]).isSome) :=
  ⟨claim_C1.1 _ _ _, by simp, claim_C1.2 0 0 [(0, 0)] (by simp)⟩

/-! ## Claim C2 -/

/-- Claim C2: holding the other scoring inputs fixed, the rounded risk
score `round(sigmoid(linear), 4)` of `compute_asset_risk` (with the default
coefficients) is non-increasing in the distance to the nearest fire, and,
whenever `wind_speed_kmh > 0`, non-decreasing in the wind-alignment
cosine. -/
theorem claim_C2 (align windSpeed humidity : ℝ) :
    (∀ d1 d2 : ℝ, d1 ≤ d2 →
      pyRound 4 (sigmoid (linearScore defaultRiskConfig d2 align windSpeed humidity)) ≤
        pyRound 4 (sigmoid (linearScore defaultRiskConfig d1 align windSpeed humidity))) ∧
    (0 < windSpeed → ∀ d a1 a2 : ℝ, a1 ≤ a2 →
      pyRound 4 (sigmoid (linearScore defaultRiskConfig d a1 windSpeed humidity)) ≤
        pyRound 4 (sigmoid (linearScore defaultRiskConfig d a2 windSpeed humidity))) := by
  constructor
  · intro d1 d2 hd
    apply pyRound_mono
    apply sigmoid_mono
    unfold linearScore defaultRiskConfig
    simp only
    linarith
  · intro hw d a1 a2 ha
    apply pyRound_mono
    apply sigmoid_mono
    unfold linearScore defaultRiskConfig
    simp only
    nlinarith [mul_le_mul_of_nonneg_left ha hw.le]

/-- Witness for C2 at concrete distances and alignments. -/
theorem claim_C2_witness :
    ((0:ℝ) ≤ 1 ∧
      pyRound 4 (sigmoid (linearScore defaultRiskConfig 1 0 1 0)) ≤
        pyRound 4 (sigmoid (linearScore defaultRiskConfig 0 0 1 0))) ∧
    ((0:ℝ) < 1 ∧
      pyRound 4 (sigmoid (linearScore defaultRiskConfig 1 0 1 0)) ≤
        pyRound 4 (sigmoid (linearScore defaultRiskConfig 1 1 1 0))) :=
  ⟨⟨by norm_num, (claim_C2 0 1 0).1 0 1 (by norm_num)⟩,
   ⟨by norm_num, (claim_C2 0 1 0).2 (by norm_num) 1 0 1 (by norm_num)⟩⟩

/-! ## Claim C3 -/

/-- Claim C3: on a cache miss with the gridmet source selected, a failing
gridded provider never surfaces: the point-forecast result is returned with
the `openmeteo_fallback` provenance tag; and when the point-forecast
provider also fails, exactly that failure propagates. -/
theorem claim_C3 {ε : Type} (source : String) (gm om : Except ε WeatherSummary)
    (e : ε) (hsrc : normalizeSource source = "gridmet".data) (hgm : gm = .error e) :
    (∀ s, om = .ok s →
      fetchWeatherSummary none gm om source =
        .ok { s with weather_source := some "openmeteo_fallback" }) ∧
    (∀ e2, om = .error e2 →
      fetchWeatherSummary none gm om source = .error (.provider e2)) := by
  subst hgm
  constructor
  · intro s hs
    subst hs
    unfold fetchWeatherSummary
    simp [hsrc]
  · intro e2 hs
    subst hs
    unfold fetchWeatherSummary
    simp [hsrc]

/-- Witness for C3 with concrete summaries and a unit error type. -/
theorem claim_C3_witness :
    fetchWeatherSummary none (Except.error () : Except Unit WeatherSummary)
        (Except.ok (⟨25, 35, 15, 180, none⟩ : WeatherSummary)) "gridmet" =
      Except.ok (⟨25, 35, 15, 180, some "openmeteo_fallback"⟩ : WeatherSummary) ∧
    fetchWeatherSummary none (Except.error () : Except Unit WeatherSummary)
        (Except.error () : Except Unit WeatherSummary) "gridmet" =
      Except.error (.provider ()) := by
  have hsrc : normalizeSource "gridmet" = "gridmet".data := by decide
  exact ⟨(claim_C3 "gridmet" _ _ () hsrc rfl).1 _ rfl,
    (claim_C3 "gridmet" _ _ () hsrc rfl).2 _ rfl⟩

/-! ## List helper lemmas -/

theorem filterMap_ite_not_lt {α β : Type} (l : List α) (g : α → ℝ) (t : ℝ)
    (f : α → β) :
    (l.filterMap fun a => if g a < t then none else some (f a)) =
      (l.filter fun a => decide (t ≤ g a)).map f := by
  induction l with
  | nil => simp
  | cons a l ih =>
    by_cases h : g a < t
    · rw [List.filterMap_cons, List.filter_cons]
      simp only [if_pos h, decide_eq_true_eq]
      rw [if_neg (not_le.mpr h)]
      exact ih
    · rw [List.filterMap_cons, List.filter_cons]
      simp only [if_neg h, decide_eq_true_eq]
      rw [if_pos (not_lt.mp h), List.map_cons]
      exact congrArg _ ih

theorem mem_assetsOfType {a : Asset} {assets : List Asset} {t : String} :
    a ∈ assetsOfType assets t ↔ a ∈ assets ∧ a.asset_type = t := by
  simp [assetsOfType]

theorem foldl_min_le_iff :
    ∀ (ds : List ℝ) (d x : ℝ), ds.foldl min d ≤ x ↔ (d ≤ x ∨ ∃ e ∈ ds, e ≤ x)
  | [], d, x => by simp
  | e :: ds, d, x => by
    rw [List.foldl_cons, foldl_min_le_iff ds (min d e) x]
    simp only [min_le_iff, List.exists_mem_cons_iff]
    tauto

/-! ## Claim C4 -/

/-- Claim C4: the cascade analyzer emits exactly one card per substation
whose looked-up risk is at least the threshold (inclusive) and none for the
others, and an entry belongs to a card's impacted list exactly when the
corresponding facility lies within the outage radius (inclusive), carrying
its great-circle distance rounded to 3 decimals. -/
theorem claim_C4 (assets : List Asset) (risks : List (String × ℝ))
    (fires : List Fire) (thr radius : ℝ) :
    (computeCascadeImpacts assets risks fires thr radius).cascade_cards =
      ((assetsOfType assets "substation").filter
          (fun sub => decide (thr ≤ riskLookup risks sub.id))).map
        (fun sub => cascadeCardFor sub (riskLookup risks sub.id)
          (assetsOfType assets "hospital") (assetsOfType assets "water_facility")
          radius) ∧
    (∀ (src : Asset) (candidates : List Asset) (r : ℝ) (entry : ImpactedAsset),
      entry ∈ assetsWithinRadius src candidates r ↔
        ∃ c ∈ candidates,
          haversineKm src.lat src.lon c.lat c.lon ≤ r ∧
            entry = ⟨c.id, c.name.getD c.asset_type,
              pyRound 3 (haversineKm src.lat src.lon c.lat c.lon)⟩) := by
  constructor
  · unfold computeCascadeImpacts
    exact filterMap_ite_not_lt _ _ _ _
  · intro src candidates r entry
    unfold assetsWithinRadius
    rw [List.mem_filterMap]
    constructor
    · rintro ⟨c, hc, hf⟩
      dsimp only at hf
      by_cases h : haversineKm src.lat src.lon c.lat c.lon ≤ r
      · rw [if_pos h] at hf
        exact ⟨c, hc, h, (Option.some.inj hf).symm⟩
      · rw [if_neg h] at hf
        exact absurd hf (by simp)
    · rintro ⟨c, hc, h, he⟩
      refine ⟨c, hc, ?_⟩
      dsimp only
      rw [if_pos h, he]

/-! ## Claim C5 -/

/-- Claim C5: a record appears among the compromised roads exactly for a
major-road asset whose nearest-fire distance exists and is at most 2.0 km
(with that distance rounded to 3 decimals); the nearest-fire distance is
absent exactly when the fire list is empty, and it is at most 2.0 km exactly
when some fire detection lies within 2.0 km of the road. -/
theorem claim_C5 (assets : List Asset) (risks : List (String × ℝ))
    (fires : List Fire) (thr radius : ℝ) :
    (∀ rec : CompromisedRoad,
      rec ∈ (computeCascadeImpacts assets risks fires thr radius).compromised_roads ↔
        ∃ road ∈ assets, road.asset_type = "major_road" ∧
          ∃ d, nearestFireDistKm road fires = some d ∧ d ≤ 2.0 ∧
            rec = ⟨road.id, road.name.getD "road", pyRound 3 d, "compromised"⟩) ∧
    (∀ road : Asset, nearestFireDistKm road fires = none ↔ fires = []) ∧
    (∀ (road : Asset) (d : ℝ), nearestFireDistKm road fires = some d →
      (d ≤ 2.0 ↔ ∃ f ∈ fires, haversineKm road.lat road.lon f.lat f.lon ≤ 2.0)) := by
  refine ⟨?_, ?_, ?_⟩
  · intro rec
    unfold computeCascadeImpacts
    rw [List.mem_filterMap]
    constructor
    · rintro ⟨road, hmem, hf⟩
      rcases mem_assetsOfType.mp hmem with ⟨hin, htype⟩
      rcases hn : nearestFireDistKm road fires with _ | d
      · rw [hn] at hf
        exact absurd hf (by simp)
      · rw [hn] at hf
        dsimp only at hf
        by_cases h2 : d ≤ 2.0
        · rw [if_pos h2] at hf
          exact ⟨road, hin, htype, d, hn, h2, (Option.some.inj hf).symm⟩
        · rw [if_neg h2] at hf
          exact absurd hf (by simp)
    · rintro ⟨road, hin, htype, d, hn, h2, hrec⟩
      refine ⟨road, mem_assetsOfType.mpr ⟨hin, htype⟩, ?_⟩
      rw [hn]
      dsimp only
      rw [if_pos h2, hrec]
  · intro road
    cases fires with
    | nil => simp [nearestFireDistKm]
    | cons f fs => simp [nearestFireDistKm]
  · intro road d hn
    cases fires with
    | nil => simp [nearestFireDistKm] at hn
    | cons f fs =>
      simp only [nearestFireDistKm, List.map_cons] at hn
      rw [← Option.some.inj hn, foldl_min_le_iff]
      simp only [List.mem_map, List.exists_mem_cons_iff]
      constructor
      · rintro (h | ⟨e, ⟨f2, hf2, rfl⟩, he⟩)
        · exact Or.inl h
        · exact Or.inr ⟨f2, hf2, he⟩
      · rintro (h | ⟨f2, hf2, he⟩)
        · exact Or.inl h
        · exact Or.inr ⟨_, ⟨f2, hf2, rfl⟩, he⟩

/-- Witness for C5: a road on top of the only fire has nearest-fire
distance 0, and the within-2-km characterization holds there. -/
theorem claim_C5_witness :
    nearestFireDistKm ⟨"r1", none, "major_road", 0, 0⟩ [⟨0, 0⟩] = some 0 ∧
      ((0:ℝ) ≤ 2.0 ↔ ∃ f ∈ [(⟨0, 0⟩ : Fire)],
        haversineKm 0 0 f.lat f.lon ≤ 2.0) := by
  have hn : nearestFireDistKm ⟨"r1", none, "major_road", 0, 0⟩ [⟨0, 0⟩] = some 0 := by
    simp [nearestFireDistKm, haversineKm_self]
  exact ⟨hn,
    (claim_C5 [] [] [⟨0, 0⟩] 0 0).2.2 ⟨"r1", none, "major_road", 0, 0⟩ 0 hn⟩

/-! ## Claim C6 -/

/-- Claim C6: on a non-empty angle list the circular mean is
`atan2(sum of sines, sum of cosines)` in degrees normalized into
`[0, 360)`, with 180 as the defined default when both sums are numerically
about zero; and the circular mean of `[10, 350]` is 0, not 180. -/
theorem claim_C6 :
    (∀ vals : List ℝ, vals ≠ [] →
      (¬(|(vals.map (fun v => Real.sin (radians v))).sum| < 1e-9 ∧
          |(vals.map (fun v => Real.cos (radians v))).sum| < 1e-9) →
        circularMeanDeg vals =
          pymod (degrees (atan2 (vals.map (fun v => Real.sin (radians v))).sum
            (vals.map (fun v => Real.cos (radians v))).sum) + 360) 360 ∧
        0 ≤ circularMeanDeg vals ∧ circularMeanDeg vals < 360) ∧
      ((|(vals.map (fun v => Real.sin (radians v))).sum| < 1e-9 ∧
          |(vals.map (fun v => Real.cos (radians v))).sum| < 1e-9) →
        circularMeanDeg vals = 180)) ∧
    circularMeanDeg [10, 350] = 0 := by
  constructor
  · intro vals hne
    cases vals with
    | nil => exact absurd rfl hne
    | cons v vs =>
      constructor
      · intro hnot
        unfold circularMeanDeg
        rw [if_neg hnot]
        exact ⟨rfl, pymod_nonneg _ (by norm_num), pymod_lt _ (by norm_num)⟩
      · intro hsmall
        unfold circularMeanDeg
        rw [if_pos hsmall]
  · have h350 : radians 350 = -(radians 10) + 2 * Real.pi := by
      unfold radians
      ring
    have hs : Real.sin (radians 350) = -Real.sin (radians 10) := by
      rw [h350, Real.sin_add_two_pi, Real.sin_neg]
    have hc : Real.cos (radians 350) = Real.cos (radians 10) := by
      rw [h350, Real.cos_add_two_pi, Real.cos_neg]
    have hrad : radians 10 = Real.pi / 18 := by
      unfold radians
      ring
    have hcbig : (0.9:ℝ) < Real.cos (radians 10) := by
      have hb := @Real.one_sub_sq_div_two_le_cos (radians 10)
      rw [hrad] at hb ⊢
      nlinarith [Real.pi_lt_d2, Real.pi_gt_three]
    have hsin : (([10, 350] : List ℝ).map (fun v => Real.sin (radians v))).sum = 0 := by
      simp [hs]
    have hcos : (([10, 350] : List ℝ).map (fun v => Real.cos (radians v))).sum =
        2 * Real.cos (radians 10) := by
      simp [hc]
      ring
    unfold circularMeanDeg
    rw [hsin, hcos, if_neg (by
      rintro ⟨-, habs⟩
      rw [abs_of_pos (by linarith)] at habs
      linarith)]
    have hat : atan2 0 (2 * Real.cos (radians 10)) = 0 := by
      unfold atan2
      rw [if_pos (by linarith)]
      rw [zero_div, Real.arctan_zero]
    rw [hat]
    unfold degrees pymod
    norm_num

/-- Witness for C6 at the one-angle list `[90]`. -/
theorem claim_C6_witness :
    (([(90:ℝ)] : List ℝ) ≠ [] ∧
      ¬(|(([(90:ℝ)] : List ℝ).map (fun v => Real.sin (radians v))).sum| < 1e-9 ∧
        |(([(90:ℝ)] : List ℝ).map (fun v => Real.cos (radians v))).sum| < 1e-9)) ∧
    (circularMeanDeg [90] =
        pymod (degrees (atan2
          (([(90:ℝ)] : List ℝ).map (fun v => Real.sin (radians v))).sum
          (([(90:ℝ)] : List ℝ).map (fun v => Real.cos (radians v))).sum) + 360) 360 ∧
      0 ≤ circularMeanDeg [90] ∧ circularMeanDeg [90] < 360) := by
  have hne : ([(90:ℝ)] : List ℝ) ≠ [] := by simp
  have hrad : radians 90 = Real.pi / 2 := by
    unfold radians
    ring
  have hsum : (([(90:ℝ)] : List ℝ).map (fun v => Real.sin (radians v))).sum = 1 := by
    simp [hrad]
  have hnot : ¬(|(([(90:ℝ)] : List ℝ).map (fun v => Real.sin (radians v))).sum| < 1e-9 ∧
      |(([(90:ℝ)] : List ℝ).map (fun v => Real.cos (radians v))).sum| < 1e-9) := by
    rw [hsum]
    rintro ⟨h1, -⟩
    rw [abs_one] at h1
    norm_num at h1
  exact ⟨⟨hne, hnot⟩, (claim_C6.1 [90] hne).1 hnot⟩

/-! ## Claim C7 -/

/-- Claim C7 as frozen is refuted by the gridded provider: with every
sample list empty, `fetch_gridmet_summary` returns wind speed
`4.2 * 3.6 = 15.12` km/h, not the claimed 15 km/h default. -/
theorem claim_C7_counterexample :
    (fetchGridmetSummaryCore [] [] [] [] [] []).wind_speed_kmh = 15.12 ∧
      (15.12 : ℝ) ≠ 15 := by
  constructor
  · unfold fetchGridmetSummaryCore meanOrDefault
    norm_num
  · norm_num

/-- Claim C7 (amended): on an empty sample set the point-forecast provider
returns exactly the defaults 25 °C / 35 % / 15 km/h / 180°, while the
gridded provider returns 25 °C / 35 % / 180° but wind speed 15.12 km/h
(its 4.2 m/s default times 3.6); and when a field's sample list is
non-empty neither provider substitutes a default: the point-forecast
fields are the (circular) means of the taken samples, gridmet wind speed
is the mean times 3.6, gridmet wind direction is the circular mean,
gridmet humidity is the mean of the min/max bands, and gridmet
temperature is the mean of the min/max bands less 273.15 exactly when
that mean exceeds 150 (the Kelvin heuristic), otherwise the mean
itself. -/
theorem claim_C7 :
    (∀ hours : ℤ, fetchOpenmeteoSummaryCore hours [] [] [] [] =
      ⟨25.0, 35.0, 15.0, 180.0, none⟩) ∧
    fetchGridmetSummaryCore [] [] [] [] [] [] =
      ⟨25.0, 35.0, 15.12, 180.0, some "gridmet"⟩ ∧
    (∀ (hours : ℤ) (temps humidity windSpeed windDir : List ℝ),
      (temps ≠ [] → (fetchOpenmeteoSummaryCore hours temps humidity windSpeed
          windDir).temperature_c =
        listMean (temps.take (takeCount hours temps))) ∧
      (humidity ≠ [] → (fetchOpenmeteoSummaryCore hours temps humidity windSpeed
          windDir).humidity_pct =
        listMean (humidity.take (takeCount hours temps))) ∧
      (windSpeed ≠ [] → (fetchOpenmeteoSummaryCore hours temps humidity windSpeed
          windDir).wind_speed_kmh =
        listMean (windSpeed.take (takeCount hours temps))) ∧
      (windDir ≠ [] → (fetchOpenmeteoSummaryCore hours temps humidity windSpeed
          windDir).wind_direction_deg =
        circularMeanDeg (windDir.take (takeCount hours temps)))) ∧
    (∀ vs th tmmn tmmx rmin rmax : List ℝ,
      (vs ≠ [] →
        (fetchGridmetSummaryCore vs th tmmn tmmx rmin rmax).wind_speed_kmh =
          listMean vs * 3.6) ∧
      (th ≠ [] →
        (fetchGridmetSummaryCore vs th tmmn tmmx rmin rmax).wind_direction_deg =
          circularMeanDeg th) ∧
      (tmmn ++ tmmx ≠ [] →
        (fetchGridmetSummaryCore vs th tmmn tmmx rmin rmax).temperature_c =
          (if 150 < listMean (tmmn ++ tmmx) then listMean (tmmn ++ tmmx) - 273.15
            else listMean (tmmn ++ tmmx))) ∧
      (rmin ++ rmax ≠ [] →
        (fetchGridmetSummaryCore vs th tmmn tmmx rmin rmax).humidity_pct =
          listMean (rmin ++ rmax))) := by
  refine ⟨?_, ?_, ?_, ?_⟩
  · intro hours
    unfold fetchOpenmeteoSummaryCore
    simp
  · unfold fetchGridmetSummaryCore meanOrDefault
    norm_num
  · intro hours temps humidity windSpeed windDir
    have htake : 1 ≤ takeCount hours temps := by
      unfold takeCount
      omega
    have hne : ∀ l : List ℝ, l ≠ [] → l.take (takeCount hours temps) ≠ [] := by
      intro l hl
      cases l with
      | nil => exact absurd rfl hl
      | cons a l =>
        cases htc : takeCount hours temps with
        | zero => omega
        | succ n => simp [htc]
    refine ⟨?_, ?_, ?_, ?_⟩ <;> intro hl <;>
      · unfold fetchOpenmeteoSummaryCore
        dsimp only
        rw [if_neg (hne _ hl)]
  · intro vs th tmmn tmmx rmin rmax
    refine ⟨?_, ?_, ?_, ?_⟩ <;> intro hl <;>
      · unfold fetchGridmetSummaryCore meanOrDefault
        dsimp only
        rw [if_neg hl]

/-- Witness for C7 at concrete one-sample lists, exercising the
point-forecast temperature, the gridmet wind speed, and the gridmet
Kelvin-converted temperature. -/
theorem claim_C7_witness :
    ([(10:ℝ)] ≠ ([] : List ℝ) ∧
      (fetchOpenmeteoSummaryCore 24 [10] [20] [30] [40]).temperature_c =
        listMean (([(10:ℝ)]).take (takeCount 24 [10]))) ∧
    ([(5:ℝ)] ≠ ([] : List ℝ) ∧
      (fetchGridmetSummaryCore [5] [] [] [] [] []).wind_speed_kmh =
        listMean [(5:ℝ)] * 3.6) ∧
    (fetchGridmetSummaryCore [] [] [300] [] [] []).temperature_c = 26.85 := by
  have h1 : [(10:ℝ)] ≠ ([] : List ℝ) := by simp
  have h2 : [(5:ℝ)] ≠ ([] : List ℝ) := by simp
  have h3 : ([(300:ℝ)] : List ℝ) ++ [] ≠ [] := by simp
  have ht := (claim_C7.2.2.2 [] [] [300] [] [] []).2.2.1 h3
  refine ⟨⟨h1, (claim_C7.2.2.1 24 [10] [20] [30] [40]).1 h1⟩,
    ⟨h2, (claim_C7.2.2.2 [5] [] [] [] [] []).1 h2⟩, ?_⟩
  rw [ht]
  norm_num [listMean]

/-! ## Claim C10 -/

theorem bearingDeg_zero : bearingDeg 0 0 0 0 = 0 := by
  unfold bearingDeg atan2 degrees pymod
  rw [radians_zero, show ((0:ℝ) - 0) = 0 from by ring, radians_zero]
  norm_num

theorem windAlignmentCos_zero : windAlignmentCos 0 0 = 1 := by
  unfold windAlignmentCos
  rw [show ((0:ℝ) - 0) = 0 from by ring, radians_zero, Real.cos_zero]

theorem pyRound4_esc : pyRound 4 (0.74996 : ℝ) = 0.75 := by
  unfold pyRound
  rw [show (0.74996:ℝ) * 10 ^ 4 = 7499.6 from by norm_num,
    roundHE_eq_of_half_lt 7499 (by norm_num) (by norm_num)]
  norm_num

/-- Claim C10: there are inputs on which `compute_asset_risk` reports the
rounded risk score 0.75 — the lower bound of the "high" bucket — while the
returned bucket, computed from the unrounded sigmoid, is "medium"; so
re-applying the bucket thresholds to the reported score does not reproduce
the reported bucket. -/
theorem claim_C10 :
    ∃ (asset : Asset) (fires : List Fire) (weather : WeatherInput),
      (computeAssetRisk asset fires weather none).risk_score = 0.75 ∧
      (computeAssetRisk asset fires weather none).risk_bucket = "medium" ∧
      bucket (computeAssetRisk asset fires weather none).risk_score = "high" := by
  have hnear : nearestPoint 0 0 [((0:ℝ), (0:ℝ))] = some (0, 0, 0) := by
    unfold nearestPoint
    rw [List.foldl_cons, List.foldl_nil]
    dsimp only
    rw [haversineKm_self]
  have hlin : linearScore defaultRiskConfig 0 1 0
      ((4.3 - Real.log (0.74996 / (1 - 0.74996))) / 0.03) =
      Real.log (0.74996 / (1 - 0.74996)) := by
    unfold linearScore defaultRiskConfig
    dsimp only
    field_simp
    ring
  have hsig : sigmoid (Real.log (0.74996 / (1 - 0.74996))) = 0.74996 :=
    sigmoid_logit (by norm_num) (by norm_num)
  have hbucketMed : bucket (0.74996 : ℝ) = "medium" := by
    unfold bucket
    rw [if_neg (by norm_num), if_pos (by norm_num)]
  have hbucketHigh : bucket (0.75 : ℝ) = "high" := by
    unfold bucket
    rw [if_pos (by norm_num)]
  have hscore : (computeAssetRisk ⟨"a1", none, "substation", 0, 0⟩ [⟨0, 0⟩]
      ⟨some 0, some ((4.3 - Real.log (0.74996 / (1 - 0.74996))) / 0.03), some 0⟩
      none).risk_score = 0.75 := by
    unfold computeAssetRisk
    simp only [List.map_cons, List.map_nil]
    rw [hnear]
    dsimp only [Option.getD]
    rw [bearingDeg_zero, windAlignmentCos_zero, hlin, hsig, pyRound4_esc]
  have hbuck : (computeAssetRisk ⟨"a1", none, "substation", 0, 0⟩ [⟨0, 0⟩]
      ⟨some 0, some ((4.3 - Real.log (0.74996 / (1 - 0.74996))) / 0.03), some 0⟩
      none).risk_bucket = "medium" := by
    unfold computeAssetRisk
    simp only [List.map_cons, List.map_nil]
    rw [hnear]
    dsimp only [Option.getD]
    rw [bearingDeg_zero, windAlignmentCos_zero, hlin, hsig, hbucketMed]
  exact ⟨_, _, _, hscore, hbuck, by rw [hscore, hbucketHigh]⟩

/-! ## Claim C9 -/

theorem atan2_one_zero : atan2 1 0 = Real.pi / 2 := by
  unfold atan2
  norm_num

theorem haversineKm_pole : haversineKm 90 0 (-90) 0 = EARTH_RADIUS_KM * Real.pi := by
  simp only [haversineKm]
  have hdlat : (radians (-90) - radians 90) / 2 = -(Real.pi / 2) := by
    unfold radians
    ring
  have hdlon : (radians 0 - radians 0) / 2 = 0 := by ring
  have hcos90 : Real.cos (radians 90) = 0 := by
    rw [show radians 90 = Real.pi / 2 from by unfold radians; ring, Real.cos_pi_div_two]
  rw [hdlat, hdlon, Real.sin_neg, Real.sin_pi_div_two, Real.sin_zero, hcos90]
  norm_num [Real.sqrt_one, atan2_one_zero]
  exact Or.inl (by ring)

theorem pi_dist_le_30000 : EARTH_RADIUS_KM * Real.pi ≤ 30000 := by
  unfold EARTH_RADIUS_KM
  nlinarith [Real.pi_lt_d2]

theorem pi_dist_not_le_two : ¬(EARTH_RADIUS_KM * Real.pi ≤ 2.0) := by
  unfold EARTH_RADIUS_KM
  push_neg
  nlinarith [Real.pi_gt_three]

/-- Claim C9 as frozen is refuted: the 2.0 km road-to-fire cutoff is not
one of the function's parameters.  A major road whose nearest fire is
`6371 * pi` km away (within the 30000 km outage radius argument, with the
risk threshold argument at 0) still produces no compromised-road record,
because the road rule compares against the hard-coded 2.0. -/
theorem claim_C9_counterexample :
    nearestFireDistKm ⟨"r1", none, "major_road", 90, 0⟩ [⟨-90, 0⟩] =
        some (EARTH_RADIUS_KM * Real.pi) ∧
      EARTH_RADIUS_KM * Real.pi ≤ 30000 ∧
      (computeCascadeImpacts [⟨"r1", none, "major_road", 90, 0⟩] [] [⟨-90, 0⟩]
          0 30000).compromised_roads = [] := by
  have hnear : nearestFireDistKm ⟨"r1", none, "major_road", 90, 0⟩ [⟨-90, 0⟩] =
      some (EARTH_RADIUS_KM * Real.pi) := by
    unfold nearestFireDistKm
    simp only [List.map_cons, List.map_nil]
    rw [show haversineKm (90:ℝ) 0 (-90) 0 = EARTH_RADIUS_KM * Real.pi from
      haversineKm_pole, List.foldl_nil]
  refine ⟨hnear, pi_dist_le_30000, ?_⟩
  simp [computeCascadeImpacts, assetsOfType, hnear, pi_dist_not_le_two]

/-- Claim C9 (amended): the substation risk threshold and the outage
radius are genuine parameters of the cascade analyzer with defaults 0.7
and 8.0 — each can change the emitted cards — but the 2.0 km road
proximity cutoff is hard-coded: the compromised-roads output is invariant
under every choice of the two exposed parameters. -/
theorem claim_C9 :
    substationThresholdDefault = 0.7 ∧ outageRadiusKmDefault = 8.0 ∧
    (∀ (assets : List Asset) (risks : List (String × ℝ)) (fires : List Fire)
        (t1 r1 t2 r2 : ℝ),
      (computeCascadeImpacts assets risks fires t1 r1).compromised_roads =
        (computeCascadeImpacts assets risks fires t2 r2).compromised_roads) ∧
    (computeCascadeImpacts [⟨"s1", none, "substation", 90, 0⟩] [("s1", 0.8)] []
        substationThresholdDefault outageRadiusKmDefault).cascade_cards ≠
      (computeCascadeImpacts [⟨"s1", none, "substation", 90, 0⟩] [("s1", 0.8)] []
        0.9 outageRadiusKmDefault).cascade_cards ∧
    (computeCascadeImpacts
        [⟨"s1", none, "substation", 90, 0⟩, ⟨"h1", none, "hospital", -90, 0⟩]
        [("s1", 0.8)] [] substationThresholdDefault outageRadiusKmDefault).cascade_cards ≠
      (computeCascadeImpacts
        [⟨"s1", none, "substation", 90, 0⟩, ⟨"h1", none, "hospital", -90, 0⟩]
        [("s1", 0.8)] [] substationThresholdDefault 30000).cascade_cards := by
  refine ⟨rfl, rfl, ?_, ?_, ?_⟩
  · intro assets risks fires t1 r1 t2 r2
    unfold computeCascadeImpacts
    rfl
  · have h1 : ¬((0.8:ℝ) < substationThresholdDefault) := by
      unfold substationThresholdDefault
      norm_num
    have h2 : (0.8:ℝ) < 0.9 := by norm_num
    have hlook : riskLookup [("s1", (0.8:ℝ))] "s1" = 0.8 := by
      simp [riskLookup]
    simp [computeCascadeImpacts, assetsOfType, hlook, h1, h2]
  · have h1 : ¬((0.8:ℝ) < substationThresholdDefault) := by
      unfold substationThresholdDefault
      norm_num
    have hlook : riskLookup [("s1", (0.8:ℝ))] "s1" = 0.8 := by
      simp [riskLookup]
    have hcond8 : ¬(haversineKm (90:ℝ) 0 (-90) 0 ≤ outageRadiusKmDefault) := by
      rw [haversineKm_pole]
      unfold outageRadiusKmDefault EARTH_RADIUS_KM
      push_neg
      nlinarith [Real.pi_gt_three]
    have hcond30 : haversineKm (90:ℝ) 0 (-90) 0 ≤ 30000 := by
      rw [haversineKm_pole]
      exact pi_dist_le_30000
    simp [computeCascadeImpacts, assetsOfType, cascadeCardFor, assetsWithinRadius,
      hlook, h1, hcond8, hcond30]

/-! ## Claim C8: decimal-string lemmas -/

theorem digitChar_toNat {d : ℕ} (h : d < 10) : (digitChar d).toNat = 48 + d := by
  interval_cases d <;> decide

theorem digitChar_mem_range {d : ℕ} (h : d < 10) :
    48 ≤ (digitChar d).toNat ∧ (digitChar d).toNat ≤ 57 := by
  rw [digitChar_toNat h]
  omega

theorem natDigits_ne_nil (n : ℕ) : natDigits n ≠ [] := by
  rw [natDigits]
  split_ifs <;> simp

theorem natDigits_digit_range (n : ℕ) :
    ∀ c ∈ natDigits n, 48 ≤ c.toNat ∧ c.toNat ≤ 57 := by
  induction n using Nat.strong_induction_on with
  | _ n ih =>
    intro c hc
    rw [natDigits] at hc
    split_ifs at hc with h
    · simp at hc
      subst hc
      exact digitChar_mem_range h
    · rcases List.mem_append.mp hc with h1 | h1
      · exact ih (n / 10) (Nat.div_lt_self (by omega) (by omega)) c h1
      · simp at h1
        subst h1
        exact digitChar_mem_range (Nat.mod_lt n (by omega))

theorem natDigits_foldl (n : ℕ) :
    ∀ i : ℕ, (natDigits n).foldl (fun acc c => acc * 10 + (c.toNat - 48)) i =
      i * 10 ^ (natDigits n).length + n := by
  induction n using Nat.strong_induction_on with
  | _ n ih =>
    intro i
    rw [natDigits]
    split_ifs with h
    · simp [digitChar_toNat h]
    · rw [List.foldl_append, ih (n / 10) (Nat.div_lt_self (by omega) (by omega)) i,
        List.length_append]
      simp [digitChar_toNat (Nat.mod_lt n (by omega))]
      rw [pow_succ, ← mul_assoc]
      generalize i * (10:ℕ) ^ (natDigits (n / 10)).length = j
      omega

theorem natDigits_inj {m n : ℕ} (h : natDigits m = natDigits n) : m = n := by
  have hm := natDigits_foldl m 0
  have hn := natDigits_foldl n 0
  rw [h] at hm
  rw [hn] at hm
  omega

theorem pad3_inj {r s : ℕ} (hr : r < 1000) (hs : s < 1000) (h : pad3 r = pad3 s) :
    r = s := by
  simp only [pad3, List.cons.injEq, and_true] at h
  obtain ⟨h1, h2, h3⟩ := h
  have d1 : r / 100 = s / 100 := by
    have hh := congrArg Char.toNat h1
    rw [digitChar_toNat (by omega), digitChar_toNat (by omega)] at hh
    omega
  have d2 : r / 10 % 10 = s / 10 % 10 := by
    have hh := congrArg Char.toNat h2
    rw [digitChar_toNat (by omega), digitChar_toNat (by omega)] at hh
    omega
  have d3 : r % 10 = s % 10 := by
    have hh := congrArg Char.toNat h3
    rw [digitChar_toNat (by omega), digitChar_toNat (by omega)] at hh
    omega
  omega

theorem pad3_digit_range {r : ℕ} (hr : r < 1000) :
    ∀ c ∈ pad3 r, 48 ≤ c.toNat ∧ c.toNat ≤ 57 := by
  intro c hc
  simp only [pad3, List.mem_cons, List.not_mem_nil, or_false] at hc
  rcases hc with h1 | h1 | h1 <;> subst h1 <;>
    exact digitChar_mem_range (by omega)

theorem not_mem_natDigits_of_toNat {c : Char} (hc : c.toNat < 48 ∨ 57 < c.toNat)
    (n : ℕ) : c ∉ natDigits n := by
  intro h
  have := natDigits_digit_range n c h
  omega

theorem not_mem_pad3_of_toNat {c : Char} (hc : c.toNat < 48 ∨ 57 < c.toNat)
    {r : ℕ} (hr : r < 1000) : c ∉ pad3 r := by
  intro h
  have := pad3_digit_range hr c h
  omega

theorem intStr_no_underscore (n : ℤ) : ('_' : Char) ∉ intStr n := by
  intro h
  unfold intStr at h
  rcases List.mem_append.mp h with h1 | h1
  · split_ifs at h1 <;> simp at h1
  · exact not_mem_natDigits_of_toNat (by right; decide) _ h1

theorem fmt3_no_underscore (x : ℝ) : ('_' : Char) ∉ fmt3 x := by
  intro h
  unfold fmt3 at h
  rcases List.mem_append.mp h with h1 | h1
  · rcases List.mem_append.mp h1 with h2 | h2
    · split_ifs at h2 <;> simp at h2
    · exact not_mem_natDigits_of_toNat (by right; decide) _ h2
  · rcases List.mem_cons.mp h1 with h3 | h3
    · simp at h3
    · exact not_mem_pad3_of_toNat (by right; decide)
        (Nat.mod_lt _ (by omega)) h3

/-- Splitting a list at a separator absent from both head parts. -/
theorem sep_split_left (sep : Char) :
    ∀ (a1 a2 b1 b2 : List Char), sep ∉ a1 → sep ∉ a2 →
      a1 ++ sep :: b1 = a2 ++ sep :: b2 → a1 = a2 ∧ b1 = b2
  | [], [], b1, b2, _, _, h => by
    simp only [List.nil_append, List.cons.injEq] at h
    exact ⟨rfl, h.2⟩
  | [], c :: a2, b1, b2, _, h2, h => by
    simp only [List.nil_append, List.cons_append, List.cons.injEq] at h
    exact absurd (h.1 ▸ List.mem_cons_self c a2) h2
  | c :: a1, [], b1, b2, h1, _, h => by
    simp only [List.nil_append, List.cons_append, List.cons.injEq] at h
    exact absurd (h.1 ▸ List.mem_cons_self c a1) h1
  | c1 :: a1, c2 :: a2, b1, b2, h1, h2, h => by
    simp only [List.cons_append, List.cons.injEq] at h
    have ht := sep_split_left sep a1 a2 b1 b2
      (fun hm => h1 (List.mem_cons_of_mem c1 hm))
      (fun hm => h2 (List.mem_cons_of_mem c2 hm)) h.2
    exact ⟨by rw [h.1, ht.1], ht.2⟩

/-- Splitting a list at a separator absent from both tail parts. -/
theorem sep_split_right (sep : Char) (a1 a2 b1 b2 : List Char)
    (hb1 : sep ∉ b1) (hb2 : sep ∉ b2)
    (h : a1 ++ sep :: b1 = a2 ++ sep :: b2) : a1 = a2 ∧ b1 = b2 := by
  have hrev : b1.reverse ++ sep :: a1.reverse = b2.reverse ++ sep :: a2.reverse := by
    have hr := congrArg List.reverse h
    simpa [List.reverse_append, List.append_assoc] using hr
  have h2 := sep_split_left sep b1.reverse b2.reverse a1.reverse a2.reverse
    (by simpa using hb1) (by simpa using hb2) hrev
  constructor
  · have := congrArg List.reverse h2.2
    simpa using this
  · have := congrArg List.reverse h2.1
    simpa using this

theorem sign_head_absurd {A B : List Char} {q : ℕ}
    (h : '-' :: A = natDigits q ++ B) : False := by
  cases hnd : natDigits q with
  | nil => exact natDigits_ne_nil q hnd
  | cons c cs =>
    rw [hnd] at h
    simp only [List.cons_append, List.cons.injEq] at h
    have hc : c ∈ natDigits q := by
      rw [hnd]
      exact List.mem_cons_self c cs
    have hr := natDigits_digit_range q c hc
    rw [← h.1] at hr
    revert hr
    decide

theorem intStr_inj {m n : ℤ} (h : intStr m = intStr n) : m = n := by
  unfold intStr at h
  by_cases hm : m < 0 <;> by_cases hn : n < 0
  · rw [if_pos hm, if_pos hn] at h
    simp only [List.singleton_append, List.cons.injEq, true_and] at h
    have := natDigits_inj h
    omega
  · rw [if_pos hm, if_neg hn] at h
    simp only [List.singleton_append, List.nil_append] at h
    have h' : '-' :: natDigits m.natAbs = natDigits n.natAbs ++ [] := by
      rw [List.append_nil]
      exact h
    exact (sign_head_absurd h').elim
  · rw [if_neg hm, if_pos hn] at h
    simp only [List.singleton_append, List.nil_append] at h
    have h' : '-' :: natDigits n.natAbs = natDigits m.natAbs ++ [] := by
      rw [List.append_nil]
      exact h.symm
    exact (sign_head_absurd h').elim
  · rw [if_neg hm, if_neg hn] at h
    simp only [List.nil_append] at h
    have := natDigits_inj h
    omega

theorem fmt3_eq_iff (x y : ℝ) :
    fmt3 x = fmt3 y ↔
      (((x < 0) ↔ (y < 0)) ∧ roundHE (x * 1000) = roundHE (y * 1000)) := by
  constructor
  · intro h
    unfold fmt3 at h
    have hbody : ∀ {u v : ℝ},
        natDigits ((roundHE (u * 1000)).natAbs / 1000) ++
            '.' :: pad3 ((roundHE (u * 1000)).natAbs % 1000) =
          natDigits ((roundHE (v * 1000)).natAbs / 1000) ++
            '.' :: pad3 ((roundHE (v * 1000)).natAbs % 1000) →
        (roundHE (u * 1000)).natAbs = (roundHE (v * 1000)).natAbs := by
      intro u v hb
      obtain ⟨hq, hp⟩ := sep_split_left '.' _ _ _ _
        (not_mem_natDigits_of_toNat (by left; decide) _)
        (not_mem_natDigits_of_toNat (by left; decide) _) hb
      have h1 := natDigits_inj hq
      have h2 := pad3_inj (Nat.mod_lt _ (by omega)) (Nat.mod_lt _ (by omega)) hp
      omega
    by_cases hx : x < 0 <;> by_cases hy : y < 0
    · rw [if_pos hx, if_pos hy] at h
      simp only [List.singleton_append, List.cons_append, List.cons.injEq,
        true_and] at h
      have habs := hbody h
      have hsx : roundHE (x * 1000) ≤ 0 := roundHE_nonpos (by nlinarith)
      have hsy : roundHE (y * 1000) ≤ 0 := roundHE_nonpos (by nlinarith)
      exact ⟨iff_of_true hx hy, by omega⟩
    · rw [if_pos hx, if_neg hy] at h
      simp only [List.singleton_append, List.nil_append, List.cons_append,
        List.append_assoc] at h
      exact (sign_head_absurd h).elim
    · rw [if_neg hx, if_pos hy] at h
      simp only [List.singleton_append, List.nil_append, List.cons_append,
        List.append_assoc] at h
      exact (sign_head_absurd h.symm).elim
    · rw [if_neg hx, if_neg hy] at h
      simp only [List.nil_append] at h
      have habs := hbody h
      have hsx : 0 ≤ roundHE (x * 1000) := roundHE_nonneg (by nlinarith [not_lt.mp hx])
      have hsy : 0 ≤ roundHE (y * 1000) := roundHE_nonneg (by nlinarith [not_lt.mp hy])
      exact ⟨iff_of_false hx hy, by omega⟩
  · rintro ⟨hsign, hround⟩
    unfold fmt3
    rw [hround]
    by_cases hx : x < 0
    · rw [if_pos hx, if_pos (hsign.mp hx)]
    · rw [if_neg hx, if_neg (fun hy => hx (hsign.mpr hy))]

/-- Claim C8 as frozen is refuted at a concrete input: the queries at
latitude 0.0001 and 0.0002 (same longitude, horizon and source) differ but
produce the same cache key, because the `%.3f` formatting collapses both
latitudes to `0.000`. -/
theorem claim_C8_counterexample :
    cacheKey 0.0001 0 24 "gridmet" = cacheKey 0.0002 0 24 "gridmet" ∧
      (0.0001 : ℝ) ≠ 0.0002 := by
  constructor
  · have r1 : roundHE ((0.0001:ℝ) * 1000) = 0 := by
      rw [show (0.0001:ℝ) * 1000 = 0.1 from by norm_num]
      exact roundHE_eq_of_lt_half 0 (by norm_num) (by norm_num)
    have r2 : roundHE ((0.0002:ℝ) * 1000) = 0 := by
      rw [show (0.0002:ℝ) * 1000 = 0.2 from by norm_num]
      exact roundHE_eq_of_lt_half 0 (by norm_num) (by norm_num)
    have hf : fmt3 (0.0001:ℝ) = fmt3 (0.0002:ℝ) :=
      (fmt3_eq_iff _ _).mpr ⟨by norm_num, by rw [r1, r2]⟩
    unfold cacheKey
    rw [hf]
  · norm_num

/-- Claim C8 (amended): two weather queries collide in the cache exactly
when they agree on source name, horizon, and both coordinates after the
sign-preserving round-half-even quantization to 3 decimals performed by
the `%.3f` formatting; distinctness of the raw coordinates alone does not
prevent a collision. -/
theorem claim_C8 (lat1 lon1 : ℝ) (hr1 : ℤ) (s1 : String)
    (lat2 lon2 : ℝ) (hr2 : ℤ) (s2 : String) :
    cacheKey lat1 lon1 hr1 s1 = cacheKey lat2 lon2 hr2 s2 ↔
      (s1 = s2 ∧ ((lat1 < 0) ↔ (lat2 < 0)) ∧
        roundHE (lat1 * 1000) = roundHE (lat2 * 1000) ∧
        ((lon1 < 0) ↔ (lon2 < 0)) ∧
        roundHE (lon1 * 1000) = roundHE (lon2 * 1000) ∧ hr1 = hr2) := by
  have hk : ∀ (lat lon : ℝ) (hh : ℤ) (s : String),
      cacheKey lat lon hh s =
        (("weather_".data ++ s.data ++ '_' :: fmt3 lat) ++ '_' :: fmt3 lon) ++
          '_' :: intStr hh := by
    intro lat lon hh s
    simp [cacheKey, List.append_assoc, List.cons_append]
  constructor
  · intro h
    rw [hk, hk] at h
    obtain ⟨hA, hI⟩ := sep_split_right '_' _ _ _ _
      (intStr_no_underscore hr1) (intStr_no_underscore hr2) h
    obtain ⟨hB, hLon⟩ := sep_split_right '_' _ _ _ _
      (fmt3_no_underscore lon1) (fmt3_no_underscore lon2) hA
    obtain ⟨hC, hLat⟩ := sep_split_right '_' _ _ _ _
      (fmt3_no_underscore lat1) (fmt3_no_underscore lat2) hB
    have hs : s1 = s2 := by
      have hd := List.append_cancel_left hC
      cases s1
      cases s2
      exact congrArg String.mk hd
    have hlat := (fmt3_eq_iff lat1 lat2).mp hLat
    have hlon := (fmt3_eq_iff lon1 lon2).mp hLon
    exact ⟨hs, hlat.1, hlat.2, hlon.1, hlon.2, intStr_inj hI⟩
  · rintro ⟨hs, hlat1, hlat2, hlon1, hlon2, hh⟩
    rw [hk, hk, hs, hh, (fmt3_eq_iff lat1 lat2).mpr ⟨hlat1, hlat2⟩,
      (fmt3_eq_iff lon1 lon2).mpr ⟨hlon1, hlon2⟩]

end Wildfire
